import Mathlib

/-!
# Verification of the tmf-ecore-editor tree/model synchronization engine

Shallow embedding of the editor's invariant-enforcement and tree-projection
core:

* `ModelActions.updateProperty`, `ModelActions.validateOppositeSettings`,
  `ModelActions.executeAction` and the `add*` / `deleteElement` helpers
  (src/unnamed/part_003, class `ModelActions`);
* `ModelActions.isSubtypeOf` / `wouldCreateInheritanceCycle`
  (src/unnamed/part_003), embedded with an explicit recursion-depth fuel
  parameter because the source recursion is unbounded;
* `ModelTreeView.handleNewElement` / `executeAction` and the label
  functions (src/unnamed/part_004);
* `PropertiesPanel.createMultiplicityInput`'s change handler and
  `getAvailableClasses` (src/src/webview/modelTreeView.ts).

The underlying object graph (`EClassImpl`, `EReferenceImpl`, ... from the
external `@tripsnek/tmf` package) is, per the spec, "an external mutable
object model with getters/setters and order-preserving multi-valued slots";
it is embedded as a heap `Nat → EObj` with plain field reads and writes.
String-valued slots that no claim observes (`nsURI`, `nsPrefix`, icons, DOM
ids) are omitted; derived feature lists (`getEAttributes`,
`getEReferences`, recomputed by `recomputeAllLists` in the source) are
computed by filtering `eStructuralFeatures`.
-/

namespace TmfEcore

/-- The runtime kinds distinguished by the `EUtils.is*` shape tests. -/
inductive EKind where
  | ePackage
  | eClass
  | eEnum
  | eDataType
  | eAttribute
  | eReference
  | eOperation
  | eParameter
  | eEnumLiteral
  deriving DecidableEq, Repr

/-- One object of the externally owned graph (`@tripsnek/tmf` impl object):
the fields read and written by the editor core.  `value`/`literalString`
belong to enum literals, bounds/type/opposite/containment to features,
`eSuperTypes` to classes; an object simply never uses the slots its kind
does not have. -/
structure EObj where
  kind : EKind := EKind.eClass
  name : String := ""
  literalString : String := ""
  value : Int := 0
  lowerBound : Int := 0
  upperBound : Int := 1
  eType : Option Nat := none
  eOpposite : Option Nat := none
  containment : Bool := false
  abstractFlag : Bool := false
  interfaceFlag : Bool := false
  container : Option Nat := none
  eSubPackages : List Nat := []
  eClassifiers : List Nat := []
  eStructuralFeatures : List Nat := []
  eOperations : List Nat := []
  eParameters : List Nat := []
  eLiterals : List Nat := []
  eSuperTypes : List Nat := []
  deriving DecidableEq, Repr

/-- The object graph: a heap of objects addressed by `Nat` identities.
`nextId` is the next fresh identity used when a `new ...Impl()` allocates.
`eStringId` is the identity of the ambient Ecore registry's `EString`
data-type instance (the external registry object referenced by the
`EAttributeImpl` constructor). -/
structure Graph where
  objs : Nat → EObj
  nextId : Nat := 0
  eStringId : Nat := 0

/-- Write one object: apply `f` to the object at `i`. -/
def Graph.setObj (g : Graph) (i : Nat) (f : EObj → EObj) : Graph :=
  { g with objs := fun j => if j = i then f (g.objs i) else g.objs j }

/-- Allocate a fresh object (a `new ...Impl()`), returning its identity. -/
def Graph.alloc (g : Graph) (o : EObj) : Graph × Nat :=
  ({ g with objs := fun j => if j = g.nextId then o else g.objs j,
            nextId := g.nextId + 1 },
   g.nextId)

theorem Graph.objs_setObj (g : Graph) (i : Nat) (f : EObj → EObj) (j : Nat) :
    (g.setObj i f).objs j = if j = i then f (g.objs i) else g.objs j := rfl

/-- `EUtils.isEReference` (src/src/webview/eUtils.ts): shape test, embedded
as a kind test on the heap object. -/
def isEReference (g : Graph) (el : Nat) : Bool :=
  (g.objs el).kind = EKind.eReference

/-- `EUtils.isEClass`. -/
def isEClass (g : Graph) (el : Nat) : Bool :=
  (g.objs el).kind = EKind.eClass

/-- The kinds whose impl classes carry the `setLowerBound`/`setUpperBound`/
`setEType` setters (typed elements). -/
def isTypedElement (g : Graph) (el : Nat) : Bool :=
  (g.objs el).kind = EKind.eAttribute ∨ (g.objs el).kind = EKind.eReference ∨
    (g.objs el).kind = EKind.eOperation ∨ (g.objs el).kind = EKind.eParameter

/-- The dynamic value passed as `any value` to `updateProperty`. -/
inductive PVal where
  | pStr (s : String)
  | pInt (n : Int)
  | pBool (b : Bool)
  | pObj (id : Nat)
  | pList (ids : List Nat)
  | pNull
  deriving DecidableEq, Repr

/-- Result record of `ModelActions.validateOppositeSettings`. -/
structure ValidationResult where
  valid : Bool
  message : Option String := none
  deriving DecidableEq, Repr

/-- `ModelActions.validateOppositeSettings` (src/unnamed/part_003,
lines 925-959): pure check for many-to-many (and, when asked, double
containment) between a reference and a proposed opposite. -/
def validateOppositeSettings (reference : EObj) (oppositeReference : Option EObj)
    (checkContainment : Bool) : ValidationResult :=
  match oppositeReference with
  | none => { valid := true }
  | some opp =>
    if reference.upperBound = -1 ∧ opp.upperBound = -1 then
      { valid := false, message := some "Cannot create many-to-many opposite relationships" }
    else if checkContainment ∧ reference.containment ∧ opp.containment then
      { valid := false, message := some "Both sides of an opposite relationship cannot be containment" }
    else
      { valid := true }

/-- `ModelActions.maybeClearEOppositesWhenETypeChanged` (src/unnamed/part_003,
lines 1157-1172): if the element is a reference with an opposite, clear the
opposite pointer on both sides. -/
def maybeClearEOppositesWhenETypeChanged (g : Graph) (el : Nat) : Graph :=
  if isEReference g el then
    match (g.objs el).eOpposite with
    | some oldOpposite =>
      let g1 := g.setObj oldOpposite (fun o => { o with eOpposite := none })
      g1.setObj el (fun o => { o with eOpposite := none })
    | none => g
  else g

/-- `ModelActions.updateProperty` (src/unnamed/part_003, lines 960-1155).
The result's second component is the message of the `Error` thrown by the
validation branches (`none` = normal return); mutations performed before a
throw persist, exactly as in the source (JavaScript has no rollback).
Property names whose cases only set fields not modelled here (`nsURI`,
`nsPrefix`, `id`, `derived`, `transient`, `unsettable`, `changeable`,
`volatile`, `defaultValue`) fall into the identity default, as does a value
whose dynamic type the source case could not meaningfully store. -/
def updateProperty (g : Graph) (el : Nat) (property : String) (value : PVal) :
    Graph × Option String :=
  match property with
  | "name" =>
    match value with
    | PVal.pStr s => (g.setObj el (fun o => { o with name := s }), none)
    | _ => (g, none)
  | "abstract" =>
    match value with
    | PVal.pBool b => (g.setObj el (fun o => { o with abstractFlag := b }), none)
    | _ => (g, none)
  | "interface" =>
    if isEClass g el then
      match value with
      | PVal.pBool b =>
        if b = true ∧
            ((g.objs el).eStructuralFeatures.any
                (fun i => (g.objs i).kind = EKind.eAttribute) ∨
              (g.objs el).eStructuralFeatures.any
                (fun i => (g.objs i).kind = EKind.eReference)) then
          (g, some "Cannot change class with structural features to an interface")
        else
          (g.setObj el (fun o => { o with interfaceFlag := b }), none)
      | _ => (g, none)
    else (g, none)
  | "containment" =>
    if isEReference g el then
      match value with
      | PVal.pBool b =>
        if b &&
            (match (g.objs el).eOpposite with
             | some opp => (g.objs opp).containment
             | none => false) then
          (g, some "Cannot set containment: opposite reference is already a containment")
        else
          (g.setObj el (fun o => { o with containment := b }), none)
      | _ => (g, none)
    else (g, none)
  | "lowerBound" =>
    if isTypedElement g el then
      match value with
      | PVal.pInt n => (g.setObj el (fun o => { o with lowerBound := n }), none)
      | _ => (g, none)
    else (g, none)
  | "upperBound" =>
    if isTypedElement g el then
      match value with
      | PVal.pInt n => (g.setObj el (fun o => { o with upperBound := n }), none)
      | _ => (g, none)
    else (g, none)
  | "eType" =>
    if isTypedElement g el then
      let g1 := maybeClearEOppositesWhenETypeChanged g el
      match value with
      | PVal.pObj t => (g1.setObj el (fun o => { o with eType := some t }), none)
      | PVal.pNull => (g1.setObj el (fun o => { o with eType := none }), none)
      | _ => (g1, none)
    else (g, none)
  | "eOpposite" =>
    if isEReference g el then
      let oldOpposite := (g.objs el).eOpposite
      let g1 := match oldOpposite with
        | some o => g.setObj o (fun x => { x with eOpposite := none })
        | none => g
      match value with
      | PVal.pObj v =>
        let validation := validateOppositeSettings (g1.objs el) (some (g1.objs v)) true
        if validation.valid then
          let g2 := g1.setObj el (fun x => { x with eOpposite := some v })
          let g3 :=
            if isEReference g2 v then
              g2.setObj v (fun x => { x with eOpposite := some el })
            else g2
          (g3, none)
        else
          (g1, some (validation.message.getD ""))
      | _ => (g1.setObj el (fun x => { x with eOpposite := none }), none)
    else (g, none)
  | "eSuperTypes" =>
    if isEClass g el then
      let newList : List Nat :=
        match value with
        | PVal.pList l => l
        | PVal.pObj x => [x]
        | _ => []
      (g.setObj el (fun o => { o with eSuperTypes := newList }), none)
    else (g, none)
  | "literal" =>
    match value with
    | PVal.pStr s => (g.setObj el (fun o => { o with literalString := s }), none)
    | _ => (g, none)
  | "value" =>
    match value with
    | PVal.pInt n => (g.setObj el (fun o => { o with value := n }), none)
    | _ => (g, none)
  | _ => (g, none)

/-! ## Action catalog (`ModelActions`, src/unnamed/part_003) -/

/-- The per-document default-name counters of `ModelActions`
(`resetCounters` zeroes them on document load). -/
structure Counters where
  classCounter : Nat := 0
  enumCounter : Nat := 0
  packageCounter : Nat := 0
  attributeCounter : Nat := 0
  referenceCounter : Nat := 0
  operationCounter : Nat := 0
  parameterCounter : Nat := 0
  literalCounter : Nat := 0
  deriving DecidableEq, Repr

/-- Result record of `ModelActions.executeAction`
(`{ newElement?, message, shouldFocusName? }`). -/
structure ActionResult where
  newElement : Option Nat := none
  message : String
  shouldFocusName : Bool := false
  deriving DecidableEq, Repr

/-- `ModelActions.addEClass`: allocate a class named `Class<n>`, link it
into the package's classifier list and set its container. -/
def addEClass (g : Graph) (c : Counters) (pkg : Nat) :
    Graph × Counters × ActionResult :=
  let c' := { c with classCounter := c.classCounter + 1 }
  let name := "Class" ++ toString c'.classCounter
  let (g1, id) := g.alloc { kind := EKind.eClass, name := name }
  let g2 := g1.setObj pkg (fun o => { o with eClassifiers := o.eClassifiers ++ [id] })
  let g3 := g2.setObj id (fun o => { o with container := some pkg })
  (g3, c', { newElement := some id,
             message := "Created new class: " ++ name ++ " (rename in properties panel)",
             shouldFocusName := true })

/-- `ModelActions.addEEnum`. -/
def addEEnum (g : Graph) (c : Counters) (pkg : Nat) :
    Graph × Counters × ActionResult :=
  let c' := { c with enumCounter := c.enumCounter + 1 }
  let name := "Enum" ++ toString c'.enumCounter
  let (g1, id) := g.alloc { kind := EKind.eEnum, name := name }
  let g2 := g1.setObj pkg (fun o => { o with eClassifiers := o.eClassifiers ++ [id] })
  let g3 := g2.setObj id (fun o => { o with container := some pkg })
  (g3, c', { newElement := some id,
             message := "Created new enum: " ++ name ++ " (rename in properties panel)",
             shouldFocusName := true })

/-- `ModelActions.addSubPackage` (the `nsURI`/`nsPrefix` strings of the
constructor are not modelled). -/
def addSubPackage (g : Graph) (c : Counters) (parentPkg : Nat) :
    Graph × Counters × ActionResult :=
  let c' := { c with packageCounter := c.packageCounter + 1 }
  let name := "package" ++ toString c'.packageCounter
  let (g1, id) := g.alloc { kind := EKind.ePackage, name := name }
  let g2 := g1.setObj parentPkg (fun o => { o with eSubPackages := o.eSubPackages ++ [id] })
  let g3 := g2.setObj id (fun o => { o with container := some parentPkg })
  (g3, c', { newElement := some id,
             message := "Created new package: " ++ name ++ " (rename in properties panel)",
             shouldFocusName := true })

/-- Modelled from the spec: the external `new EAttributeImpl()`
(`@tripsnek/tmf`, not under src/) initialises a fresh attribute;
the spec's walkthrough labels a freshly added attribute
`attribute1 : EString`, so the constructor's default target type is the
registry's `EString` data type. -/
def newEAttributeImpl (g : Graph) : EObj :=
  { kind := EKind.eAttribute, eType := some g.eStringId }

/-- `ModelActions.addAttribute` (src/unnamed/part_003, lines 679-703):
default name `attribute<n>`, bounds 1..1, linked into the class's
structural-feature list (`recomputeAllLists` only refreshes the derived
attribute/reference lists, which this embedding computes by filtering). -/
def addAttribute (g : Graph) (c : Counters) (cls : Nat) :
    Graph × Counters × ActionResult :=
  let c' := { c with attributeCounter := c.attributeCounter + 1 }
  let name := "attribute" ++ toString c'.attributeCounter
  let (g1, id) := g.alloc { newEAttributeImpl g with
                              name := name, lowerBound := 1, upperBound := 1 }
  let g2 := g1.setObj cls (fun o =>
    { o with eStructuralFeatures := o.eStructuralFeatures ++ [id] })
  let g3 := g2.setObj id (fun o => { o with container := some cls })
  (g3, c', { newElement := some id,
             message := "Created new attribute: " ++ name ++ " (configure in properties panel)",
             shouldFocusName := true })

/-- `ModelActions.addReference`. -/
def addReference (g : Graph) (c : Counters) (cls : Nat) :
    Graph × Counters × ActionResult :=
  let c' := { c with referenceCounter := c.referenceCounter + 1 }
  let name := "reference" ++ toString c'.referenceCounter
  let (g1, id) := g.alloc { kind := EKind.eReference, name := name,
                            lowerBound := 1, upperBound := 1 }
  let g2 := g1.setObj cls (fun o =>
    { o with eStructuralFeatures := o.eStructuralFeatures ++ [id] })
  let g3 := g2.setObj id (fun o => { o with container := some cls })
  (g3, c', { newElement := some id,
             message := "Created new reference: " ++ name ++ " (configure in properties panel)",
             shouldFocusName := true })

/-- `ModelActions.addOperation`. -/
def addOperation (g : Graph) (c : Counters) (cls : Nat) :
    Graph × Counters × ActionResult :=
  let c' := { c with operationCounter := c.operationCounter + 1 }
  let name := "operation" ++ toString c'.operationCounter
  let (g1, id) := g.alloc { kind := EKind.eOperation, name := name }
  let g2 := g1.setObj cls (fun o => { o with eOperations := o.eOperations ++ [id] })
  let g3 := g2.setObj id (fun o => { o with container := some cls })
  (g3, c', { newElement := some id,
             message := "Created new operation: " ++ name ++ " (configure in properties panel)",
             shouldFocusName := true })

/-- `ModelActions.addParameter`. -/
def addParameter (g : Graph) (c : Counters) (op : Nat) :
    Graph × Counters × ActionResult :=
  let c' := { c with parameterCounter := c.parameterCounter + 1 }
  let name := "param" ++ toString c'.parameterCounter
  let (g1, id) := g.alloc { kind := EKind.eParameter, name := name }
  let g2 := g1.setObj op (fun o => { o with eParameters := o.eParameters ++ [id] })
  let g3 := g2.setObj id (fun o => { o with container := some op })
  (g3, c', { newElement := some id,
             message := "Created new parameter: " ++ name ++ " (configure in properties panel)",
             shouldFocusName := true })

/-- `ModelActions.addEnumLiteral` (src/unnamed/part_003, lines 778-798):
`setValue(eEnum.getELiterals().size())` runs before the literal is added,
so the ordinal equals the number of literals held before insertion. -/
def addEnumLiteral (g : Graph) (c : Counters) (enm : Nat) :
    Graph × Counters × ActionResult :=
  let c' := { c with literalCounter := c.literalCounter + 1 }
  let name := "LITERAL_" ++ toString c'.literalCounter
  let v : Int := ((g.objs enm).eLiterals.length : Int)
  let (g1, id) := g.alloc { kind := EKind.eEnumLiteral, name := name,
                            literalString := name, value := v }
  let g2 := g1.setObj enm (fun o => { o with eLiterals := o.eLiterals ++ [id] })
  let g3 := g2.setObj id (fun o => { o with container := some enm })
  (g3, c', { newElement := some id,
             message := "Created new literal: " ++ name ++ " (rename in properties panel)",
             shouldFocusName := true })

/-- `ModelActions.getElementTypeName`: the impl constructor name with the
`Impl` suffix dropped. -/
def getElementTypeName (k : EKind) : String :=
  match k with
  | EKind.ePackage => "EPackage"
  | EKind.eClass => "EClass"
  | EKind.eEnum => "EEnum"
  | EKind.eDataType => "EDataType"
  | EKind.eAttribute => "EAttribute"
  | EKind.eReference => "EReference"
  | EKind.eOperation => "EOperation"
  | EKind.eParameter => "EParameter"
  | EKind.eEnumLiteral => "EEnumLiteral"

/-- `ModelActions.deleteElement`: locate the container and remove the
element from the kind-appropriate slot; soft failure when no container. -/
def deleteElement (g : Graph) (c : Counters) (el : Nat) :
    Graph × Counters × ActionResult :=
  match (g.objs el).container with
  | none => (g, c, { message := "Cannot delete: parent not found" })
  | some parent =>
    let elementName := (g.objs el).name
    let elementType := getElementTypeName (g.objs el).kind
    let g' :=
      match (g.objs el).kind with
      | EKind.ePackage =>
        g.setObj parent (fun o => { o with eSubPackages := o.eSubPackages.erase el })
      | EKind.eEnumLiteral =>
        g.setObj parent (fun o => { o with eLiterals := o.eLiterals.erase el })
      | EKind.eClass =>
        g.setObj parent (fun o => { o with eClassifiers := o.eClassifiers.erase el })
      | EKind.eEnum =>
        g.setObj parent (fun o => { o with eClassifiers := o.eClassifiers.erase el })
      | EKind.eAttribute =>
        g.setObj parent (fun o =>
          { o with eStructuralFeatures := o.eStructuralFeatures.erase el })
      | EKind.eReference =>
        g.setObj parent (fun o =>
          { o with eStructuralFeatures := o.eStructuralFeatures.erase el })
      | EKind.eOperation =>
        g.setObj parent (fun o => { o with eOperations := o.eOperations.erase el })
      | EKind.eParameter =>
        g.setObj parent (fun o => { o with eParameters := o.eParameters.erase el })
      | EKind.eDataType => g
    (g', c, { message := "Deleted " ++ elementType ++ ": " ++ elementName })

/-- `ModelActions.executeAction` (src/unnamed/part_003, lines 591-617):
dispatch on the action type string; unknown types return only the
`Unknown action` message. -/
def executeAction (g : Graph) (c : Counters) (el : Nat) (actionType : String) :
    Graph × Counters × ActionResult :=
  if actionType = "addClass" then addEClass g c el
  else if actionType = "addEnum" then addEEnum g c el
  else if actionType = "addSubPackage" then addSubPackage g c el
  else if actionType = "addAttribute" then addAttribute g c el
  else if actionType = "addReference" then addReference g c el
  else if actionType = "addOperation" then addOperation g c el
  else if actionType = "addParameter" then addParameter g c el
  else if actionType = "addLiteral" then addEnumLiteral g c el
  else if actionType = "delete" then deleteElement g c el
  else (g, c, { message := "Unknown action: " ++ actionType })

/-! ## Inheritance-cycle check (`ModelActions`, src/unnamed/part_003,
lines 1177-1203)

`isSubtypeOf` recurses over the super-type lists with no visited set and
no depth bound, so the embedding carries an explicit fuel parameter
bounding the recursion depth; `none` means the depth bound was hit, i.e.
the source recursion reaches at least that depth at this input. -/

/-- The `for` loop of `ModelActions.isSubtypeOf`: try each direct
super-type with the (already fuel-limited) recursive call `rec`. -/
def isSubtypeOfAny (rec : Nat → Nat → Option Bool) :
    List Nat → Nat → Option Bool
  | [], _ => some false
  | s :: rest, sup =>
    match rec s sup with
    | none => none
    | some true => some true
    | some false => isSubtypeOfAny rec rest sup

/-- `ModelActions.isSubtypeOf`, fuel-indexed. -/
def isSubtypeOfF (g : Graph) : Nat → Nat → Nat → Option Bool
  | 0 => fun _ _ => none
  | fuel + 1 => fun potentialSubtype potentialSupertype =>
    if potentialSubtype = potentialSupertype then some true
    else
      isSubtypeOfAny (isSubtypeOfF g fuel)
        ((g.objs potentialSubtype).eSuperTypes) potentialSupertype

/-- `ModelActions.wouldCreateInheritanceCycle`, fuel-indexed. -/
def wouldCreateInheritanceCycleF (g : Graph) (fuel : Nat)
    (eClass : Nat) (potentialSuperType : Option Nat) : Option Bool :=
  match potentialSuperType with
  | none => some false
  | some p =>
    if eClass = p then some true
    else isSubtypeOfF g fuel p eClass

/-- `PropertiesPanel.getAvailableClasses`
(src/src/webview/modelTreeView.ts, lines 1834-1863), used to build the
super-type dropdown: skip the edited class itself and any class whose
selection would create an inheritance cycle.  The generated random option
ids and display labels are not modelled; `none` propagates a cycle check
that hit the fuel bound. -/
def getAvailableClassesF (g : Graph) (fuel : Nat) (excludeClass : Option Nat) :
    List Nat → Option (List Nat)
  | [] => some []
  | cls :: rest =>
    match excludeClass with
    | some x =>
      if cls = x then getAvailableClassesF g fuel excludeClass rest
      else
        match wouldCreateInheritanceCycleF g fuel x (some cls) with
        | none => none
        | some true => getAvailableClassesF g fuel excludeClass rest
        | some false =>
          Option.map (fun l => cls :: l) (getAvailableClassesF g fuel excludeClass rest)
    | none =>
      Option.map (fun l => cls :: l) (getAvailableClassesF g fuel excludeClass rest)

/-! ## Tree projection (`ModelTreeView`, src/unnamed/part_004) -/

/-- The `type` tag of a display `TreeNode`. -/
inductive TKind where
  | tRoot
  | tPackage
  | tClass
  | tEnum
  | tAttribute
  | tReference
  | tOperation
  | tParameter
  | tEnumLiteral
  deriving DecidableEq, Repr

/-- One display node of the tree projection.  The source record also
carries a randomly generated dom id, a child list (empty for every freshly
created node observed by the claims) and a parent back-pointer (represented
here by the node's position in its parent's child list). -/
structure TNode where
  element : Nat
  kind : TKind
  label : String := ""
  expanded : Bool := false
  deriving DecidableEq, Repr

/-- JavaScript's `x || 'unnamed'` on a name string. -/
def nameOrUnnamed (s : String) : String :=
  if s = "" then "unnamed" else s

/-- `ModelTreeView.getMultiplicity` (src/unnamed/part_004, lines 976-983):
`[*]` exactly for upper bound -1, otherwise empty. -/
def getMultiplicity (g : Graph) (el : Nat) : String :=
  if (g.objs el).upperBound = -1 then "[*]" else ""

/-- `attr.getEType() ? attr.getEType().getName() : "void"`. -/
def typeNameOf (g : Graph) (el : Nat) : String :=
  match (g.objs el).eType with
  | some t => (g.objs t).name
  | none => "void"

/-- The label computed by `ModelTreeView.createAttributeNode`
(src/unnamed/part_004, lines 353-371), also recomputed verbatim by
`updateNodeLabel` for attribute nodes. -/
def attrNodeLabel (g : Graph) (el : Nat) : String :=
  nameOrUnnamed (g.objs el).name ++ " : " ++ typeNameOf g el ++ getMultiplicity g el

/-- The label computed by `ModelTreeView.createReferenceNode`. -/
def refNodeLabel (g : Graph) (el : Nat) : String :=
  nameOrUnnamed (g.objs el).name ++ " : " ++ typeNameOf g el ++ getMultiplicity g el ++
    (if (g.objs el).containment then " [containment]" else "")

/-- The label computed by `ModelTreeView.createParameterNode`. -/
def paramNodeLabel (g : Graph) (el : Nat) : String :=
  nameOrUnnamed (g.objs el).name ++ " : " ++ typeNameOf g el ++ getMultiplicity g el

/-- `ModelTreeView.getClassLabelWithSuperType` (src/unnamed/part_004,
lines 314-326): the class name alone, or `name → firstSuper`. -/
def classNodeLabel (g : Graph) (el : Nat) : String :=
  match (g.objs el).eSuperTypes with
  | [] => nameOrUnnamed (g.objs el).name
  | s :: _ => nameOrUnnamed (g.objs el).name ++ " → " ++ nameOrUnnamed (g.objs s).name

/-- `ModelTreeView.getOperationLabel`:
`name(param1: type1, ...): returnType`. -/
def operationNodeLabel (g : Graph) (el : Nat) : String :=
  let paramStrings := (g.objs el).eParameters.map
    (fun p => (g.objs p).name ++ ": " ++ typeNameOf g p)
  nameOrUnnamed (g.objs el).name ++ "(" ++ String.intercalate ", " paramStrings ++
    "): " ++ typeNameOf g el

/-- The label of the literal node built inline in
`ModelTreeView.handleNewElement`'s `addLiteral` case:
`${name || literal || "unnamed"} = ${value || 0}`. -/
def literalNodeLabel (g : Graph) (el : Nat) : String :=
  nameOrUnnamed (if (g.objs el).name = "" then (g.objs el).literalString
                 else (g.objs el).name) ++
    " = " ++ toString (g.objs el).value

/-- The display node built by `ModelTreeView.handleNewElement` for the
element created by an add action (the `create*Node` helpers; fresh nodes
start collapsed with no children). -/
def createNodeForAction (g : Graph) (actionType : String) (el : Nat) : TNode :=
  if actionType = "addClass" then
    { element := el, kind := TKind.tClass, label := classNodeLabel g el }
  else if actionType = "addEnum" then
    { element := el, kind := TKind.tEnum, label := nameOrUnnamed (g.objs el).name }
  else if actionType = "addSubPackage" then
    { element := el, kind := TKind.tPackage, label := nameOrUnnamed (g.objs el).name,
      expanded := true }
  else if actionType = "addAttribute" then
    { element := el, kind := TKind.tAttribute, label := attrNodeLabel g el }
  else if actionType = "addReference" then
    { element := el, kind := TKind.tReference, label := refNodeLabel g el }
  else if actionType = "addOperation" then
    { element := el, kind := TKind.tOperation, label := operationNodeLabel g el }
  else if actionType = "addParameter" then
    { element := el, kind := TKind.tParameter, label := paramNodeLabel g el }
  else
    { element := el, kind := TKind.tEnumLiteral, label := literalNodeLabel g el }

/-- JavaScript `Array.prototype.findIndex`, with `none` for -1. -/
def findIdxO (p : TNode → Bool) : List TNode → Option Nat
  | [] => none
  | n :: rest => if p n then some 0 else (findIdxO p rest).map (· + 1)

/-- JavaScript `children.splice(i, 0, n)`: insert `n` at position `i`
(append when `i` is past the end). -/
def insertAt (i : Nat) (n : TNode) (l : List TNode) : List TNode :=
  l.take i ++ n :: l.drop i

/-- The child-list mutation of `ModelTreeView.handleNewElement`
(src/unnamed/part_004, lines 870-930): attributes are spliced in before the
first `EReference` child, else before the first `EOperation` child, else
appended; references before the first `EOperation` child, else appended;
every other known kind is pushed at the end; unknown action types leave
the list unchanged. -/
def handleNewElementChildren (actionType : String) (children : List TNode)
    (newNode : TNode) : List TNode :=
  if actionType = "addClass" then children ++ [newNode]
  else if actionType = "addEnum" then children ++ [newNode]
  else if actionType = "addSubPackage" then children ++ [newNode]
  else if actionType = "addAttribute" then
    let firstRefIndex := findIdxO (fun n => n.kind == TKind.tReference) children
    let firstOpIndex := findIdxO (fun n => n.kind == TKind.tOperation) children
    let insertIndex :=
      match firstRefIndex with
      | some i => i
      | none =>
        match firstOpIndex with
        | some i => i
        | none => children.length
    insertAt insertIndex newNode children
  else if actionType = "addReference" then
    let opIndex := findIdxO (fun n => n.kind == TKind.tOperation) children
    let refInsertIndex :=
      match opIndex with
      | some i => i
      | none => children.length
    insertAt refInsertIndex newNode children
  else if actionType = "addOperation" then children ++ [newNode]
  else if actionType = "addParameter" then children ++ [newNode]
  else if actionType = "addLiteral" then children ++ [newNode]
  else children

/-- The slice of tree-view state the structural claims observe: the target
parent display node's child list and expansion flag, and the selected
element. -/
structure TreeState where
  parentChildren : List TNode
  parentExpanded : Bool
  selected : Option Nat
  deriving DecidableEq, Repr

/-- `ModelTreeView.executeAction` (src/unnamed/part_004, lines 814-862),
restricted to its effect on `TreeState`: when `ModelActions` created an
element, splice the new display node into the parent (via
`handleNewElement`), mark the parent expanded and select the new node;
when the action was `delete`, splice the node out and clear a matching
selection; otherwise the projection is untouched.  (`nodeMap` upkeep,
DOM refresh and the status message display are not modelled.) -/
def treeExecuteAction (g : Graph) (ts : TreeState) (el : Nat)
    (actionType : String) (res : ActionResult) : TreeState :=
  match res.newElement with
  | some newId =>
    let newNode := createNodeForAction g actionType newId
    { parentChildren := handleNewElementChildren actionType ts.parentChildren newNode,
      parentExpanded := true,
      selected := some newId }
  | none =>
    if actionType = "delete" then
      if ts.parentChildren.any (fun n => n.element == el) then
        { parentChildren := ts.parentChildren.eraseP (fun n => n.element == el),
          parentExpanded := ts.parentExpanded,
          selected := if ts.selected = some el then none else ts.selected }
      else ts
    else ts

/-- The `change` handler installed by
`PropertiesPanel.createMultiplicityInput`
(src/src/webview/modelTreeView.ts, lines 1416-1453): checking the
many-valued box on a reference whose opposite is already many-valued
alerts and resets the checkbox without issuing a property update; in every
other case `updateProperty(element, 'upperBound', checked ? -1 : 1)` runs.
Result: the graph afterwards, paired with whether the alert fired. -/
def multiplicityChange (g : Graph) (el : Nat) (checked : Bool) : Graph × Bool :=
  let applyUpdate :=
    ((updateProperty g el "upperBound" (PVal.pInt (if checked then -1 else 1))).1,
     false)
  if checked && isEReference g el then
    match (g.objs el).eOpposite with
    | some opp =>
      if (g.objs opp).upperBound = -1 then (g, true) else applyUpdate
    | none => applyUpdate
  else applyUpdate

/-- Iterated `addEnumLiteral`: `n` consecutive add-Literal actions on the
same enum, threading graph and counters. -/
def addLiteralsIter (g : Graph) (c : Counters) (enm : Nat) :
    Nat → Graph × Counters
  | 0 => (g, c)
  | n + 1 =>
    let p := addLiteralsIter g c enm n
    let step := addEnumLiteral p.1 p.2 enm
    (step.1, step.2.1)

/-! ## Concrete graphs used to evaluate the embedding -/

/-- A bare single-valued reference object. -/
def blankRef : EObj := { kind := EKind.eReference, upperBound := 1 }

/-- Three references `r = 10`, `other = 11`, `t = 12`; `t` and `other`
are each other's opposites (a symmetric pair), `r` has no opposite. -/
def gOppositeSet : Graph :=
  { objs := fun i =>
      if i = 10 then blankRef
      else if i = 11 then { blankRef with eOpposite := some 12 }
      else if i = 12 then { blankRef with eOpposite := some 11 }
      else {},
    nextId := 13 }

/-- References `r = 20` (many-valued, opposite `21`), `o = 21`
(opposite `20`) and `w = 22` (many-valued, no opposite): setting
`r.eOpposite = w` must fail the many-to-many validation. -/
def gOppositeFail : Graph :=
  { objs := fun i =>
      if i = 20 then { blankRef with upperBound := -1, eOpposite := some 21 }
      else if i = 21 then { blankRef with eOpposite := some 20 }
      else if i = 22 then { blankRef with upperBound := -1 }
      else {},
    nextId := 23 }

/-- References `r = 30` (opposite `31`) and `o = 31` (many-valued,
opposite `30`). -/
def gManyMany : Graph :=
  { objs := fun i =>
      if i = 30 then { blankRef with eOpposite := some 31 }
      else if i = 31 then { blankRef with upperBound := -1, eOpposite := some 30 }
      else {},
    nextId := 32 }

/-- A single class `40` with an empty super-type list. -/
def gSelfSuper : Graph :=
  { objs := fun i => if i = 40 then { kind := EKind.eClass } else {},
    nextId := 41 }

/-- Classes `0` and `1` whose super-type lists already form a cycle
(`0` extends `1`, `1` extends `0`), plus an unrelated class `2`. -/
def gCyclic : Graph :=
  { objs := fun i =>
      if i = 0 then { kind := EKind.eClass, eSuperTypes := [1] }
      else if i = 1 then { kind := EKind.eClass, eSuperTypes := [0] }
      else if i = 2 then { kind := EKind.eClass }
      else {},
    nextId := 3 }

/-- An empty root package `0` plus the registry data types `EString = 1`
and `EInt = 2`: the starting point of the spec's walkthrough scenario. -/
def gScenario : Graph :=
  { objs := fun i =>
      if i = 0 then { kind := EKind.ePackage, name := "p" }
      else if i = 1 then { kind := EKind.eDataType, name := "EString" }
      else if i = 2 then { kind := EKind.eDataType, name := "EInt" }
      else {},
    nextId := 3, eStringId := 1 }

/-- Step 1 of the scenario: add-Class on the root package. -/
def scenarioStep1 : Graph × Counters × ActionResult :=
  executeAction gScenario {} 0 "addClass"

/-- Step 2 of the scenario: add-Attribute on the created class (id 3). -/
def scenarioStep2 : Graph × Counters × ActionResult :=
  executeAction scenarioStep1.1 scenarioStep1.2.1 3 "addAttribute"

/-- Step 3 of the scenario: set the attribute's (id 4) type to `EInt`. -/
def scenarioStep3 : Graph :=
  (updateProperty scenarioStep2.1 4 "eType" (PVal.pObj 2)).1

/-- Step 4 of the scenario: make the attribute many-valued. -/
def scenarioStep4 : Graph :=
  (updateProperty scenarioStep3 4 "upperBound" (PVal.pInt (-1))).1

/-- A fresh enum `5` with no literals. -/
def gEnumFix : Graph :=
  { objs := fun i => if i = 5 then { kind := EKind.eEnum, name := "Enum1" } else {},
    nextId := 6 }

/-- A small tree-state fixture: an expanded class node with one attribute,
one reference and one operation child. -/
def tsFix : TreeState :=
  { parentChildren :=
      [ { element := 1, kind := TKind.tAttribute },
        { element := 2, kind := TKind.tReference },
        { element := 3, kind := TKind.tOperation } ],
    parentExpanded := true,
    selected := some 1 }

/-! ## Theorems -/

/-- Claim C1: the claim states that opposite symmetry is preserved by every
`updateProperty` call, in particular that a third reference which
previously had `other` as its opposite gets its stale pointer cleared.
The code violates this: starting from the symmetric pair `t = 12`,
`other = 11`, a successful `updateProperty(r = 10, 'eOpposite', other)`
returns without error and leaves `t.eOpposite = other` while
`other.eOpposite = r`, so `t.eOpposite.eOpposite = r ≠ t`: the stale
pointer on `t` is never cleared and the symmetry invariant is broken. -/
theorem updateOpposite_leaves_stale_third_pointer :
    (gOppositeSet.objs 12).eOpposite = some 11 ∧
    (gOppositeSet.objs 11).eOpposite = some 12 ∧
    (updateProperty gOppositeSet 10 "eOpposite" (PVal.pObj 11)).2 = none ∧
    ((updateProperty gOppositeSet 10 "eOpposite" (PVal.pObj 11)).1.objs 10).eOpposite
      = some 11 ∧
    ((updateProperty gOppositeSet 10 "eOpposite" (PVal.pObj 11)).1.objs 11).eOpposite
      = some 10 ∧
    ((updateProperty gOppositeSet 10 "eOpposite" (PVal.pObj 11)).1.objs 12).eOpposite
      = some 11 := by
  refine ⟨rfl, rfl, rfl, rfl, rfl, rfl⟩

/-- Claim C2: the claim states that when `updateProperty(r, 'eOpposite', v)`
fails validation, the graph is left untouched, in particular `r`'s existing
opposite link to `o` on both sides.  The code violates this: it clears the
old opposite's back-pointer *before* running the validation, so after the
many-to-many rejection (`r = 20` many-valued, proposed `w = 22`
many-valued) the error is raised but `o = 21` has already lost its pointer
to `r`, while `r` still points at `o`. -/
theorem updateOpposite_failure_mutates_graph :
    (gOppositeFail.objs 20).eOpposite = some 21 ∧
    (gOppositeFail.objs 21).eOpposite = some 20 ∧
    (updateProperty gOppositeFail 20 "eOpposite" (PVal.pObj 22)).2
      = some "Cannot create many-to-many opposite relationships" ∧
    ((updateProperty gOppositeFail 20 "eOpposite" (PVal.pObj 22)).1.objs 20).eOpposite
      = some 21 ∧
    ((updateProperty gOppositeFail 20 "eOpposite" (PVal.pObj 22)).1.objs 21).eOpposite
      = none := by
  refine ⟨rfl, rfl, rfl, rfl, rfl⟩

/-- Claim C3 (counterexample): the claim states that setting a class as its
own super-type is rejected via the `'eSuperTypes'` property-update path
and leaves the super-type list unchanged.  At class `40` with an empty
super-type list, `updateProperty(c, 'eSuperTypes', c)` raises no error and
sets the list to `[c]`: the property-update path performs no cycle
validation at all. -/
theorem updateSuperTypes_accepts_self :
    (gSelfSuper.objs 40).eSuperTypes = [] ∧
    (updateProperty gSelfSuper 40 "eSuperTypes" (PVal.pObj 40)).2 = none ∧
    ((updateProperty gSelfSuper 40 "eSuperTypes" (PVal.pObj 40)).1.objs 40).eSuperTypes
      = [40] := by
  refine ⟨rfl, rfl, rfl⟩

/-- Claim C6 (counterexample): the claim states that
`updateProperty(r, 'upperBound', -1)` is rejected by a validator when `r`'s
opposite is already many-valued, leaving `r`'s upper bound unchanged.  At
`r = 30` (upper bound 1) whose opposite `31` has upper bound -1, the call
raises no error and sets `r`'s upper bound to -1: the `upperBound` case of
`updateProperty` applies the value unconditionally. -/
theorem updateUpperBound_applies_unconditionally :
    (gManyMany.objs 30).eOpposite = some 31 ∧
    (gManyMany.objs 31).upperBound = -1 ∧
    (gManyMany.objs 30).upperBound = 1 ∧
    (updateProperty gManyMany 30 "upperBound" (PVal.pInt (-1))).2 = none ∧
    ((updateProperty gManyMany 30 "upperBound" (PVal.pInt (-1))).1.objs 30).upperBound
      = -1 := by
  refine ⟨rfl, rfl, rfl, rfl, rfl⟩

/-- Claim C8: starting from an empty root package, add-Class creates a
display node labelled `Class1`; add-Attribute on that class creates a node
labelled `attribute1 : EString`; after setting the attribute's type to
`EInt` and its multiplicity to many-valued, the recomputed label is
`attribute1 : EInt[*]`; and in general the `[*]` marker appears exactly
when the upper bound is -1. -/
theorem scenario_labels :
    scenarioStep1.2.2.newElement = some 3 ∧
    (createNodeForAction scenarioStep1.1 "addClass" 3).label = "Class1" ∧
    scenarioStep2.2.2.newElement = some 4 ∧
    (createNodeForAction scenarioStep2.1 "addAttribute" 4).label
      = "attribute1 : EString" ∧
    attrNodeLabel scenarioStep4 4 = "attribute1 : EInt[*]" ∧
    (∀ (g : Graph) (el : Nat),
      getMultiplicity g el = "[*]" ↔ (g.objs el).upperBound = -1) := by
  refine ⟨rfl, rfl, rfl, rfl, rfl, ?_⟩
  intro g el
  unfold getMultiplicity
  by_cases h : (g.objs el).upperBound = -1
  · simp [h]
  · simp [h]

/-- On the already-cyclic graph `gCyclic` (`0` extends `1`, `1` extends
`0`), `isSubtypeOf` starting inside the cycle with target `2` exhausts
every recursion-depth bound: the source recursion, which has no visited
set or depth bound, never returns. -/
theorem isSubtypeOf_cyclic_exhausts_fuel :
    ∀ fuel : Nat,
      isSubtypeOfF gCyclic fuel 0 2 = none ∧ isSubtypeOfF gCyclic fuel 1 2 = none := by
  intro fuel
  induction fuel with
  | zero => exact ⟨rfl, rfl⟩
  | succ n ih =>
    have h0 : (gCyclic.objs 0).eSuperTypes = [1] := rfl
    have h1 : (gCyclic.objs 1).eSuperTypes = [0] := rfl
    constructor
    · show isSubtypeOfF gCyclic (n + 1) 0 2 = none
      simp [isSubtypeOfF, isSubtypeOfAny, h0, ih.2]
    · show isSubtypeOfF gCyclic (n + 1) 1 2 = none
      simp [isSubtypeOfF, isSubtypeOfAny, h1, ih.1]

/-- Claim C4: the claim states that `wouldCreateInheritanceCycle(a, b)`
returns a boolean in finitely many steps on every graph, including graphs
whose super-type lists already contain a cycle.  The code violates this:
`isSubtypeOf` has neither a visited set nor a depth bound, and on the
already-malformed graph `gCyclic` the call
`wouldCreateInheritanceCycle(2, 0)` recurses forever — the fuel-indexed
embedding hits the depth bound for every choice of bound. -/
theorem wouldCreateInheritanceCycle_diverges_on_cyclic_graph :
    (gCyclic.objs 0).eSuperTypes = [1] ∧
    (gCyclic.objs 1).eSuperTypes = [0] ∧
    ∀ fuel : Nat, wouldCreateInheritanceCycleF gCyclic fuel 2 (some 0) = none := by
  refine ⟨rfl, rfl, ?_⟩
  intro fuel
  have h := (isSubtypeOf_cyclic_exhausts_fuel fuel).1
  simp [wouldCreateInheritanceCycleF, h]

/-- Claim C5: for a reference `r` whose opposite is `o`,
`updateProperty(r, 'eType', t)` first clears the opposite on both sides
(`maybeClearEOppositesWhenETypeChanged`) and then applies the type:
afterwards `r.eOpposite = null`, `o.eOpposite = null` and `r.eType = t`,
with no error raised. -/
theorem updateEType_clears_opposite_both_sides (g : Graph) (r o t : Nat)
    (href : isEReference g r = true)
    (hopp : (g.objs r).eOpposite = some o) :
    (updateProperty g r "eType" (PVal.pObj t)).2 = none ∧
    ((updateProperty g r "eType" (PVal.pObj t)).1.objs r).eOpposite = none ∧
    ((updateProperty g r "eType" (PVal.pObj t)).1.objs o).eOpposite = none ∧
    ((updateProperty g r "eType" (PVal.pObj t)).1.objs r).eType = some t := by
  have htyped : isTypedElement g r = true := by
    unfold isEReference at href
    unfold isTypedElement
    simp only [decide_eq_true_eq] at href ⊢
    exact Or.inr (Or.inl href)
  have hred : updateProperty g r "eType" (PVal.pObj t) =
      ((maybeClearEOppositesWhenETypeChanged g r).setObj r
        (fun o' => { o' with eType := some t }), none) := by
    unfold updateProperty
    simp [htyped]
  have hclear : maybeClearEOppositesWhenETypeChanged g r =
      (g.setObj o (fun x => { x with eOpposite := none })).setObj r
        (fun x => { x with eOpposite := none }) := by
    unfold maybeClearEOppositesWhenETypeChanged
    simp [href, hopp]
  rw [hred, hclear]
  by_cases hor : o = r
  · subst hor
    simp [Graph.objs_setObj]
  · simp [Graph.objs_setObj, hor, Ne.symm hor]

/-- Witness for claim C5 at the concrete graph `gOppositeSet`
(`r = 12`, `o = 11`, new type `2`). -/
theorem updateEType_clears_opposite_both_sides_witness :
    isEReference gOppositeSet 12 = true ∧
    (gOppositeSet.objs 12).eOpposite = some 11 ∧
    ((updateProperty gOppositeSet 12 "eType" (PVal.pObj 2)).2 = none ∧
      ((updateProperty gOppositeSet 12 "eType" (PVal.pObj 2)).1.objs 12).eOpposite = none ∧
      ((updateProperty gOppositeSet 12 "eType" (PVal.pObj 2)).1.objs 11).eOpposite = none ∧
      ((updateProperty gOppositeSet 12 "eType" (PVal.pObj 2)).1.objs 12).eType = some 2) :=
  ⟨by decide, by decide,
    updateEType_clears_opposite_both_sides gOppositeSet 12 11 2 (by decide) (by decide)⟩

/-- Claim C6 (amended): the many-to-many rejection happens in the UI layer,
not in `updateProperty`: the `change` handler of the multiplicity checkbox
(`createMultiplicityInput`) detects that the reference's opposite is
already many-valued, alerts, resets the checkbox and never issues the
property update, so the graph — in particular `r`'s upper bound — is
unchanged. -/
theorem multiplicity_checkbox_rejects_many_to_many (g : Graph) (r o : Nat)
    (href : isEReference g r = true)
    (hopp : (g.objs r).eOpposite = some o)
    (hub : (g.objs o).upperBound = -1) :
    multiplicityChange g r true = (g, true) := by
  unfold multiplicityChange
  simp [href, hopp, hub]

/-- Witness for the amended claim C6 at the concrete graph `gManyMany`
(`r = 30`, opposite `31` many-valued). -/
theorem multiplicity_checkbox_rejects_many_to_many_witness :
    isEReference gManyMany 30 = true ∧
    (gManyMany.objs 30).eOpposite = some 31 ∧
    (gManyMany.objs 31).upperBound = -1 ∧
    multiplicityChange gManyMany 30 true = (gManyMany, true) :=
  ⟨by decide, by decide, by decide,
    multiplicity_checkbox_rejects_many_to_many gManyMany 30 31 (by decide) (by decide)
      (by decide)⟩

/-- Claim C9: for every action type outside the known set,
`ModelActions.executeAction` returns no created element and the message
`Unknown action: <type>`, leaves graph and counters untouched, and the
tree-view dispatch performs no tree mutation. -/
theorem unknown_action_is_noop (g : Graph) (c : Counters) (el : Nat)
    (ts : TreeState) (t : String)
    (h : t ∉ (["addClass", "addEnum", "addSubPackage", "addAttribute",
                "addReference", "addOperation", "addParameter", "addLiteral",
                "delete"] : List String)) :
    executeAction g c el t
      = (g, c, { newElement := none, message := "Unknown action: " ++ t }) ∧
    treeExecuteAction g ts el t { newElement := none, message := "Unknown action: " ++ t }
      = ts := by
  simp only [List.mem_cons, List.mem_singleton, not_or] at h
  obtain ⟨h1, h2, h3, h4, h5, h6, h7, h8, h9, -⟩ := h
  constructor
  · unfold executeAction
    simp [h1, h2, h3, h4, h5, h6, h7, h8, h9]
  · unfold treeExecuteAction
    simp [h9]

/-- Witness for claim C9 at the action type `frobnicate` on the concrete
graph `gEnumFix` and tree state `tsFix`. -/
theorem unknown_action_is_noop_witness :
    ("frobnicate" ∉ (["addClass", "addEnum", "addSubPackage", "addAttribute",
                       "addReference", "addOperation", "addParameter", "addLiteral",
                       "delete"] : List String)) ∧
    executeAction gEnumFix {} 5 "frobnicate"
      = (gEnumFix, {}, { newElement := none, message := "Unknown action: frobnicate" }) ∧
    treeExecuteAction gEnumFix tsFix 5 "frobnicate"
        { newElement := none, message := "Unknown action: frobnicate" }
      = tsFix :=
  ⟨by decide,
    (unknown_action_is_noop gEnumFix {} 5 tsFix "frobnicate" (by decide)).1,
    (unknown_action_is_noop gEnumFix {} 5 tsFix "frobnicate" (by decide)).2⟩

/-- Claim C3 (amended): self- and cycle-forming super-type assignments are
prevented by the option filter, not by the property-update path: every
class offered by `getAvailableClasses(c)` is distinct from `c` and passes
`wouldCreateInheritanceCycle(c, ·)` with `false`, so a rejected candidate
can never be selected and the super-type list stays unchanged because no
update is ever issued for it. -/
theorem superTypeOptions_exclude_self_and_cycles (g : Graph) (fuel x : Nat) :
    ∀ (all opts : List Nat),
      getAvailableClassesF g fuel (some x) all = some opts →
      ∀ b ∈ opts, b ≠ x ∧ wouldCreateInheritanceCycleF g fuel x (some b) = some false := by
  intro all
  induction all with
  | nil =>
    intro opts h b hb
    simp only [getAvailableClassesF, Option.some.injEq] at h
    subst h
    simp at hb
  | cons c rest ih =>
    intro opts h b hb
    simp only [getAvailableClassesF] at h
    by_cases hcx : c = x
    · rw [if_pos hcx] at h
      exact ih opts h b hb
    · rw [if_neg hcx] at h
      cases hcyc : wouldCreateInheritanceCycleF g fuel x (some c) with
      | none =>
        simp only [hcyc] at h
        exact Option.noConfusion h
      | some bv =>
        simp only [hcyc] at h
        cases bv with
        | true => exact ih opts h b hb
        | false =>
          cases hrest : getAvailableClassesF g fuel (some x) rest with
          | none =>
            rw [hrest] at h
            simp at h
          | some l =>
            rw [hrest] at h
            simp only [Option.map_some', Option.some.injEq] at h
            subst h
            rcases List.mem_cons.mp hb with hbc | hbl
            · subst hbc
              exact ⟨hcx, hcyc⟩
            · exact ih l hrest b hbl

/-- Witness for the amended claim C3 at the concrete graph `gCyclic` with
edited class `0` and candidate list `[0, 1, 2]`: the filter offers only
class `2`, which is neither `0` itself nor cycle-forming. -/
theorem superTypeOptions_exclude_self_and_cycles_witness :
    getAvailableClassesF gCyclic 3 (some 0) [0, 1, 2] = some [2] ∧
    2 ∈ ([2] : List Nat) ∧
    (2 ≠ 0 ∧ wouldCreateInheritanceCycleF gCyclic 3 0 (some 2) = some false) :=
  ⟨by decide, by decide,
    superTypeOptions_exclude_self_and_cycles gCyclic 3 0 [0, 1, 2] [2] (by decide) 2
      (by decide)⟩

/-- A `findIndex` miss is exactly the absence of a matching element. -/
theorem findIdxO_eq_none_iff (p : TNode → Bool) (l : List TNode) :
    findIdxO p l = none ↔ l.any p = false := by
  induction l with
  | nil => simp [findIdxO]
  | cons a rest ih =>
    by_cases h : p a <;> simp [findIdxO, h, ih, Option.map_eq_none']

/-- Splicing at the position `findIndex` reports (or at the end on a miss)
is the same as inserting right before the first element satisfying `p`,
appending when there is none. -/
theorem insertAt_findIdxO (p : TNode → Bool) (l : List TNode) (n : TNode) :
    insertAt (match findIdxO p l with | some i => i | none => l.length) n l
      = l.takeWhile (fun c => !(p c)) ++ n :: l.dropWhile (fun c => !(p c)) := by
  induction l with
  | nil => rfl
  | cons a rest ih =>
    by_cases h : p a
    · simp [findIdxO, h, insertAt, List.takeWhile_cons, List.dropWhile_cons]
    · cases hfi : findIdxO p rest with
      | some i =>
        rw [hfi] at ih
        simp only [findIdxO, h, hfi, if_false, Option.map_some']
        show insertAt (i + 1) n (a :: rest) = _
        simp only [insertAt, List.take_succ_cons, List.drop_succ_cons,
          List.takeWhile_cons, List.dropWhile_cons, h]
        simp only [Bool.not_false, if_true, List.cons_append, List.cons.injEq, true_and]
        exact ih
      | none =>
        rw [hfi] at ih
        simp only [findIdxO, h, hfi, if_false, Option.map_none']
        show insertAt (rest.length + 1) n (a :: rest) = _
        simp only [insertAt, List.take_succ_cons, List.drop_succ_cons,
          List.takeWhile_cons, List.dropWhile_cons, h]
        simp only [Bool.not_false, if_true, List.cons_append, List.cons.injEq, true_and]
        exact ih

/-- Claim C7: on an add-child action, the new display node is inserted at
the kind-specific position — an Attribute immediately before the first
Reference child if one exists, otherwise immediately before the first
Operation child, otherwise at the end; a Reference immediately before the
first Operation child, otherwise at the end; every other kind is appended —
and the tree-view dispatch then marks the parent expanded and selects the
new node. -/
theorem addAction_insert_position_expand_select :
    (∀ (children : List TNode) (n : TNode),
      handleNewElementChildren "addAttribute" children n =
        if children.any (fun c => c.kind == TKind.tReference) then
          children.takeWhile (fun c => !(c.kind == TKind.tReference)) ++
            n :: children.dropWhile (fun c => !(c.kind == TKind.tReference))
        else
          children.takeWhile (fun c => !(c.kind == TKind.tOperation)) ++
            n :: children.dropWhile (fun c => !(c.kind == TKind.tOperation))) ∧
    (∀ (children : List TNode) (n : TNode),
      handleNewElementChildren "addReference" children n =
        children.takeWhile (fun c => !(c.kind == TKind.tOperation)) ++
          n :: children.dropWhile (fun c => !(c.kind == TKind.tOperation))) ∧
    (∀ (children : List TNode) (n : TNode),
      handleNewElementChildren "addClass" children n = children ++ [n] ∧
      handleNewElementChildren "addEnum" children n = children ++ [n] ∧
      handleNewElementChildren "addSubPackage" children n = children ++ [n] ∧
      handleNewElementChildren "addOperation" children n = children ++ [n] ∧
      handleNewElementChildren "addParameter" children n = children ++ [n] ∧
      handleNewElementChildren "addLiteral" children n = children ++ [n]) ∧
    (∀ (g : Graph) (ts : TreeState) (el newId : Nat) (t m : String) (b : Bool),
      treeExecuteAction g ts el t
          { newElement := some newId, message := m, shouldFocusName := b }
        = { parentChildren :=
              handleNewElementChildren t ts.parentChildren
                (createNodeForAction g t newId),
            parentExpanded := true,
            selected := some newId }) := by
  refine ⟨?_, ?_, ?_, ?_⟩
  · intro children n
    by_cases href : children.any (fun c => c.kind == TKind.tReference)
    · rw [if_pos href]
      obtain ⟨i, hi⟩ : ∃ i, findIdxO (fun c => c.kind == TKind.tReference) children = some i := by
        cases hfi : findIdxO (fun c => c.kind == TKind.tReference) children with
        | none =>
          rw [findIdxO_eq_none_iff] at hfi
          rw [hfi] at href
          exact absurd href (by decide)
        | some i => exact ⟨i, rfl⟩
      have hins := insertAt_findIdxO (fun c => c.kind == TKind.tReference) children n
      rw [hi] at hins
      show insertAt _ n children = _
      rw [hi]
      exact hins
    · rw [if_neg href]
      simp only [Bool.not_eq_true] at href
      have hnone : findIdxO (fun c => c.kind == TKind.tReference) children = none := by
        rw [findIdxO_eq_none_iff]
        exact href
      have hins := insertAt_findIdxO (fun c => c.kind == TKind.tOperation) children n
      show insertAt _ n children = _
      rw [hnone]
      exact hins
  · intro children n
    exact insertAt_findIdxO (fun c => c.kind == TKind.tOperation) children n
  · intro children n
    exact ⟨rfl, rfl, rfl, rfl, rfl, rfl⟩
  · intro g ts el newId t m b
    rfl

/-- The ordinal stored by `addEnumLiteral` on the freshly allocated literal
is the number of literals the enum held before the insertion
(`setValue(eEnum.getELiterals().size())` runs before `add`). -/
theorem addEnumLiteral_value_at_new (g : Graph) (c : Counters) (e : Nat) :
    ((addEnumLiteral g c e).1.objs g.nextId).value
      = ((g.objs e).eLiterals.length : Int) := by
  by_cases h : g.nextId = e <;>
    simp [addEnumLiteral, Graph.alloc, Graph.setObj, h]

/-- Effect of `addEnumLiteral` on the enum object itself: the new literal's
identity is appended to its literal list. -/
theorem addEnumLiteral_objs_enum (g : Graph) (c : Counters) (e : Nat)
    (hne : e ≠ g.nextId) :
    (addEnumLiteral g c e).1.objs e
      = { g.objs e with eLiterals := (g.objs e).eLiterals ++ [g.nextId] } := by
  simp [addEnumLiteral, Graph.alloc, Graph.setObj, hne]

/-- `addEnumLiteral` touches no object other than the enum and the fresh
literal. -/
theorem addEnumLiteral_objs_other (g : Graph) (c : Counters) (e x : Nat)
    (hx1 : x ≠ e) (hx2 : x ≠ g.nextId) :
    (addEnumLiteral g c e).1.objs x = g.objs x := by
  simp [addEnumLiteral, Graph.alloc, Graph.setObj, hx1, hx2]

/-- Invariant of iterated add-Literal actions on an initially empty enum:
the enum's literal list stays made of fresh identities and their stored
ordinals read `0, 1, ..., n-1` in list order. -/
theorem addLiteralsIter_values (g : Graph) (c : Counters) (e : Nat)
    (hempty : (g.objs e).eLiterals = []) (hlt : e < g.nextId) :
    ∀ n : Nat,
      e < (addLiteralsIter g c e n).1.nextId ∧
      (∀ x ∈ ((addLiteralsIter g c e n).1.objs e).eLiterals,
        x ≠ e ∧ x < (addLiteralsIter g c e n).1.nextId) ∧
      ((addLiteralsIter g c e n).1.objs e).eLiterals.map
          (fun i => ((addLiteralsIter g c e n).1.objs i).value)
        = (List.range n).map (fun i => Int.ofNat i) := by
  intro n
  induction n with
  | zero =>
    refine ⟨hlt, ?_, ?_⟩
    · intro x hx
      rw [show (addLiteralsIter g c e 0).1 = g from rfl, hempty] at hx
      cases hx
    · show (g.objs e).eLiterals.map _ = _
      rw [hempty]
      rfl
  | succ n ih =>
    obtain ⟨ih1, ih2, ih3⟩ := ih
    have hstep : (addLiteralsIter g c e (n + 1)).1
        = (addEnumLiteral (addLiteralsIter g c e n).1 (addLiteralsIter g c e n).2 e).1 :=
      rfl
    have hne : e ≠ (addLiteralsIter g c e n).1.nextId := Nat.ne_of_lt ih1
    have hlen : ((addLiteralsIter g c e n).1.objs e).eLiterals.length = n := by
      have hl := congrArg List.length ih3
      rw [List.length_map, List.length_map, List.length_range] at hl
      exact hl
    have hobjs := addEnumLiteral_objs_enum (addLiteralsIter g c e n).1
      (addLiteralsIter g c e n).2 e hne
    have hnext : (addEnumLiteral (addLiteralsIter g c e n).1
        (addLiteralsIter g c e n).2 e).1.nextId
        = (addLiteralsIter g c e n).1.nextId + 1 := rfl
    refine ⟨?_, ?_, ?_⟩
    · rw [hstep, hnext]
      exact Nat.lt_succ_of_lt ih1
    · intro x hx
      rw [hstep, hobjs] at hx
      simp only [] at hx
      rcases List.mem_append.mp hx with hmem | hmem
      · obtain ⟨hxe, hxlt⟩ := ih2 x hmem
        rw [hstep, hnext]
        exact ⟨hxe, Nat.lt_succ_of_lt hxlt⟩
      · rw [List.mem_singleton] at hmem
        subst hmem
        rw [hstep, hnext]
        exact ⟨Ne.symm hne, Nat.lt_succ_self _⟩
    · rw [hstep, hobjs]
      simp only []
      rw [List.map_append]
      have hmap_old :
          ((addLiteralsIter g c e n).1.objs e).eLiterals.map
              (fun i => ((addEnumLiteral (addLiteralsIter g c e n).1
                (addLiteralsIter g c e n).2 e).1.objs i).value)
            = ((addLiteralsIter g c e n).1.objs e).eLiterals.map
                (fun i => ((addLiteralsIter g c e n).1.objs i).value) := by
        refine List.map_congr_left ?_
        intro x hmem
        obtain ⟨hxe, hxlt⟩ := ih2 x hmem
        rw [addEnumLiteral_objs_other _ _ _ _ hxe (Nat.ne_of_lt hxlt)]
      rw [hmap_old, ih3]
      have hval := addEnumLiteral_value_at_new (addLiteralsIter g c e n).1
        (addLiteralsIter g c e n).2 e
      rw [hlen] at hval
      simp [hval, List.range_succ]

/-- Claim C10: the ordinal assigned by the add-Literal action equals the
number of literals the owning enum held immediately before the insertion;
consequently, literals created in sequence on an initially empty enum
carry the consecutive ordinals `0, 1, 2, ...` in creation order. -/
theorem enumLiteral_ordinal_values :
    (∀ (g : Graph) (c : Counters) (e : Nat),
      (addEnumLiteral g c e).2.2.newElement = some g.nextId ∧
      ((addEnumLiteral g c e).1.objs g.nextId).value
        = ((g.objs e).eLiterals.length : Int)) ∧
    (∀ (g : Graph) (c : Counters) (e : Nat),
      (g.objs e).eLiterals = [] → e < g.nextId →
      ∀ n : Nat,
        ((addLiteralsIter g c e n).1.objs e).eLiterals.map
            (fun i => ((addLiteralsIter g c e n).1.objs i).value)
          = (List.range n).map (fun i => Int.ofNat i)) := by
  constructor
  · intro g c e
    exact ⟨rfl, addEnumLiteral_value_at_new g c e⟩
  · intro g c e hempty hlt n
    exact (addLiteralsIter_values g c e hempty hlt n).2.2

/-- Witness for claim C10 at the concrete enum `5` of `gEnumFix`: three
consecutive add-Literal actions produce ordinals `[0, 1, 2]`. -/
theorem enumLiteral_ordinal_values_witness :
    (gEnumFix.objs 5).eLiterals = [] ∧ 5 < gEnumFix.nextId ∧
    ((addLiteralsIter gEnumFix {} 5 3).1.objs 5).eLiterals.map
        (fun i => ((addLiteralsIter gEnumFix {} 5 3).1.objs i).value)
      = (List.range 3).map (fun i => Int.ofNat i) :=
  ⟨rfl, by decide, enumLiteral_ordinal_values.2 gEnumFix {} 5 rfl (by decide) 3⟩

end TmfEcore
